import Mathlib

/-!
Verification of the footfall-counter core against its specification.

The definitions in this file are a shallow embedding of the Python sources
of the repository:
  app/services/footfall_tracker.py   (class FootfallTracker)
  app/services/video_processor.py    (class VideoProcessor)
  app/api/v1/endpoints/processing.py (process_video_background)
  app/api/v1/endpoints/websocket.py  (websocket_livestream, lines 162-185)
  app/schemas/configuration.py       (ConfigurationBase)

Python integers are embedded as Int.  Python dicts keyed by track id are
embedded as functions Int to Option.  Frame drawing (cv2 calls) has no
effect on the counting state and is dropped; the external YOLO tracker is
abstracted as the list of per-frame detection lists it yields.
-/

namespace Footfall

/-- A 2D point with integer coordinates. -/
abbrev Point := Int × Int

/-- A box or a line given as the 4-tuple (x1, y1, x2, y2), as in the Python
code, which passes both ROI lines and bounding boxes around in this form. -/
abbrev Box := Int × Int × Int × Int

/-- Embeds the local function side of FootfallTracker.is_crossing_line
(footfall_tracker.py line 38-39):
side(px, py) = (y2-y1)*px - (x2-x1)*py + (x2*y1 - x1*y2). -/
def side (line : Box) (px py : Int) : Int :=
  let (x1, y1, x2, y2) := line
  (y2 - y1) * px - (x2 - x1) * py + (x2 * y1 - x1 * y2)

/-- Embeds the local function ccw of line_intersect (footfall_tracker.py
lines 60-61): ccw(A, B, C) = (C[1]-A[1])*(B[0]-A[0]) > (B[1]-A[1])*(C[0]-A[0]).
The comparison is strict. -/
def ccw (A B C : Point) : Bool :=
  decide ((C.2 - A.2) * (B.1 - A.1) > (B.2 - A.2) * (C.1 - A.1))

/-- Embeds line_intersect (footfall_tracker.py lines 57-65): the two segments
p1-p2 and q1-q2 intersect iff ccw(p1,q1,q2) != ccw(p2,q1,q2) and
ccw(p1,p2,q1) != ccw(p1,p2,q2). -/
def line_intersect (p1 p2 q1 q2 : Point) : Bool :=
  (ccw p1 q1 q2 != ccw p2 q1 q2) && (ccw p1 p2 q1 != ccw p1 p2 q2)

/-- Embeds bbox_edges (footfall_tracker.py lines 48-55): the four edges of an
axis-aligned box, in the order top, right, bottom, left. -/
def bbox_edges (box : Box) : List (Point × Point) :=
  let (x1, y1, x2, y2) := box
  [((x1, y1), (x2, y1)), ((x2, y1), (x2, y2)),
   ((x2, y2), (x1, y2)), ((x1, y2), (x1, y1))]

/-- Embeds the comprehension `any(line_intersect((x1,y1),(x2,y2), e[0], e[1])
for e in bbox_edges(box))` used for prev_cross and curr_cross
(footfall_tracker.py lines 67-72). -/
def box_cross (line : Box) (box : Box) : Bool :=
  let (x1, y1, x2, y2) := line
  (bbox_edges box).any (fun e => line_intersect (x1, y1) (x2, y2) e.1 e.2)

/-- Embeds FootfallTracker.is_crossing_line (footfall_tracker.py lines 27-81).
Returns 1 when the center side flips upward (commented in the source as
entry), -1 when it flips downward (commented as exit), 0 when no crossing is
reported. -/
def is_crossing_line (line : Box) (prev_box curr_box : Box)
    (prev_center curr_center : Point) : Int :=
  let prev_side := side line prev_center.1 prev_center.2
  let curr_side := side line curr_center.1 curr_center.2
  let center_cross : Int :=
    if prev_side ≠ 0 ∧ curr_side ≠ 0 ∧ prev_side * curr_side < 0 then
      if prev_side < curr_side then 1 else -1
    else 0
  let prev_cross := box_cross line prev_box
  let curr_cross := box_cross line curr_box
  let bbox_cross :=
    (!prev_cross && curr_cross) || (prev_cross && !curr_cross) ||
      (prev_cross && curr_cross)
  if center_cross ≠ 0 ∧ bbox_cross = true then center_cross else 0

/-- One detection handed to check_crossings (footfall_tracker.py lines
148-159): a stable track id, the box center and the bounding box. -/
structure Detection where
  track_id : Int
  center : Point
  bbox : Box
deriving DecidableEq, Repr

/-- A counted crossing, the CrossingEvent of the specification: track id,
direction label and the frame at which it was accepted. -/
structure CrossingEvent where
  track_id : Int
  event_type : String
  frame : Int
deriving DecidableEq, Repr

/-- State of a FootfallTracker instance (footfall_tracker.py lines 9-25).
tracked_objects maps a track id to its last (bbox, center); recent_events
maps a track id to the (type, frame) record written by record_event.  The
field events is a ghost log not present in the Python class: one
CrossingEvent is appended exactly where record_event is called, i.e. exactly
when one of the two counters is incremented; it makes the number of accepted
events of the specification explicit. -/
structure FootfallTracker where
  line : Box
  debounce_frames : Int
  entry_count : Int
  exit_count : Int
  tracked_objects : Int → Option (Box × Point)
  recent_events : Int → Option (String × Int)
  frame_number : Int
  events : List CrossingEvent

/-- Embeds FootfallTracker.__init__ (footfall_tracker.py lines 9-25). -/
def init_tracker (line_coords : Box) (debounce_frames : Int) : FootfallTracker where
  line := line_coords
  debounce_frames := debounce_frames
  entry_count := 0
  exit_count := 0
  tracked_objects := fun _ => none
  recent_events := fun _ => none
  frame_number := 0
  events := []

/-- Embeds FootfallTracker.should_count_event (footfall_tracker.py lines
83-88): true when the track has no recent event, or when
frame_number - recent_frame > debounce_frames (strict).  The Python method
ignores its event_type argument; it is kept for fidelity. -/
def should_count_event (st : FootfallTracker) (track_id : Int)
    (event_type : String) : Bool :=
  match st.recent_events track_id with
  | none => true
  | some ev => decide (st.frame_number - ev.2 > st.debounce_frames)

/-- Embeds FootfallTracker.record_event (footfall_tracker.py lines 90-92),
and additionally appends the accepted event to the ghost log events. -/
def record_event (st : FootfallTracker) (track_id : Int)
    (event_type : String) : FootfallTracker :=
  { st with
    recent_events := fun t =>
      if t = track_id then some (event_type, st.frame_number)
      else st.recent_events t
    events := st.events ++ [⟨track_id, event_type, st.frame_number⟩] }

/-- Embeds FootfallTracker.check_crossings (footfall_tracker.py lines
162-183), dropping the cv2 drawing calls, which do not touch the counting
state.  When the track has a previous observation and is_crossing_line
returns 1, the code increments exit_count and records an exit event; when it
returns -1, it increments entry_count and records an entry event.  In both
cases the debounce gate should_count_event is consulted first.  The history
entry for the track is overwritten unconditionally at the end. -/
def check_crossings (st : FootfallTracker) (det : Detection) : FootfallTracker :=
  let st1 :=
    match st.tracked_objects det.track_id with
    | some prev =>
      let crossing :=
        is_crossing_line st.line prev.1 det.bbox prev.2 det.center
      if crossing = 1 ∧ should_count_event st det.track_id "exit" = true then
        record_event { st with exit_count := st.exit_count + 1 } det.track_id "exit"
      else if crossing = -1 ∧ should_count_event st det.track_id "entry" = true then
        record_event { st with entry_count := st.entry_count + 1 } det.track_id "entry"
      else st
    | none => st
  { st1 with
    tracked_objects := fun t =>
      if t = det.track_id then some (det.bbox, det.center)
      else st1.tracked_objects t }

/-- Embeds FootfallTracker.process_frame (footfall_tracker.py lines 185-194):
increment frame_number, then run check_crossings on each detection of the
frame.  The YOLO extraction process_detections and the drawing calls are
abstracted: the frame is given directly as its list of detections. -/
def process_frame (st : FootfallTracker) (detections : List Detection) :
    FootfallTracker :=
  detections.foldl check_crossings { st with frame_number := st.frame_number + 1 }

/-- Result shape of FootfallTracker.get_counts (footfall_tracker.py lines
196-202). -/
structure Counts where
  entries : Int
  exits : Int
  total : Int
deriving DecidableEq, Repr

/-- Embeds FootfallTracker.get_counts (footfall_tracker.py lines 196-202). -/
def get_counts (st : FootfallTracker) : Counts where
  entries := st.entry_count
  exits := st.exit_count
  total := st.entry_count + st.exit_count

/-- One call made to a live tracker: a whole frame through process_frame, or
a direct check_crossings call on one detection. -/
inductive TrackerOp where
  | frame (detections : List Detection)
  | cross (det : Detection)

/-- Applies one operation to a tracker state. -/
def applyOp (st : FootfallTracker) : TrackerOp → FootfallTracker
  | .frame detections => process_frame st detections
  | .cross det => check_crossings st det

/-- The tracker state reached from a fresh tracker by a sequence of
process_frame / check_crossings calls. -/
def runOps (line_coords : Box) (debounce_frames : Int)
    (ops : List TrackerOp) : FootfallTracker :=
  ops.foldl applyOp (init_tracker line_coords debounce_frames)

/-- Result dictionary returned by VideoProcessor.process_video_file
(video_processor.py lines 111-118), restricted to the fields the claims
mention.  processing_duration and output_path carry no verified content and
are dropped. -/
structure RunOutput where
  entry_count : Int
  exit_count : Int
  total_frames : Nat
  fps : Int
deriving DecidableEq, Repr

/-- Which of the resources of one process_video_file call were opened and
released.  cap is the cv2.VideoCapture handle, writer the cv2.VideoWriter. -/
structure RunTrace where
  cap_opened : Bool
  cap_released : Bool
  writer_opened : Bool
  writer_released : Bool
deriving DecidableEq, Repr

/-- Abstract environment of one process_video_file call: whether the path
exists, the declared frame count and fps reported by the capture, the
per-frame detections the external YOLO tracker yields, and failure
injection points: tracker_fail_at n makes the track generator raise before
yielding frame n, write_fail_at n makes video_writer.write raise on frame n. -/
structure VideoEnv where
  file_exists : Bool
  total_frames : Int
  fps : Int
  frames : List (List Detection)
  tracker_fail_at : Option Nat
  write_fail_at : Option Nat

/-- Embeds the frame loop of process_video_file (video_processor.py lines
91-102) inside the try block: each yielded track set goes through
tracker.process_frame, then through the optional writer; the processed-frame
counter increments per iteration.  Raising is modelled by Except. -/
def run_loop (st : FootfallTracker) (frames : List (List Detection)) (i : Nat)
    (tfail wfail : Option Nat) (useOutput : Bool) :
    Except String (FootfallTracker × Nat) :=
  match frames with
  | [] => .ok (st, i)
  | f :: rest =>
    if tfail = some i then .error "DetectorFailure"
    else
      let st1 := process_frame st f
      if useOutput = true ∧ wfail = some i then .error "OutputWriteFailure"
      else run_loop st1 rest (i + 1) tfail wfail useOutput

/-- Embeds VideoProcessor.process_video_file (video_processor.py lines
26-118).  Control flow of the source, in order:
1. if not os.path.exists(video_path): raise FileNotFoundError (line 49) -
   the capture is never opened;
2. the tracker is built and cap = cv2.VideoCapture(video_path) is opened
   (lines 53-58);
3. if total_frames == 0: raise ValueError (lines 60-63) - this raise sits
   BEFORE the try/finally of lines 79-107, so cap is not released on this
   path;
4. the writer is opened when an output path was given (lines 66-73);
5. the frame loop runs inside try, and the finally block releases cap and,
   when opened, the writer (lines 104-107), on the normal path and on every
   raising path of the loop.
No parameter validation is performed anywhere: roi_coords, confidence and
debounce_frames are passed through unchecked (confidence goes only to the
external tracker and is unused by this model of the loop). -/
def process_video_file (env : VideoEnv) (roi_coords : Box) (confidence : ℚ)
    (debounce_frames : Int) (useOutput : Bool) :
    Except String RunOutput × RunTrace :=
  if env.file_exists = false then
    (.error "FileNotFoundError", ⟨false, false, false, false⟩)
  else
    let tracker := init_tracker roi_coords debounce_frames
    if env.total_frames = 0 then
      (.error "ValueError", ⟨true, false, false, false⟩)
    else
      match run_loop tracker env.frames 0 env.tracker_fail_at env.write_fail_at
          useOutput with
      | .ok (tr, n) =>
        (.ok ⟨tr.entry_count, tr.exit_count, n, env.fps⟩,
         ⟨true, true, useOutput, useOutput⟩)
      | .error e => (.error e, ⟨true, true, useOutput, useOutput⟩)

/-- Job lifecycle states (models/processing_job.py JobStatus). -/
inductive JobStatus where
  | pending
  | processing
  | completed
  | failed
  | cancelled
deriving DecidableEq, Repr

/-- The persisted ProcessingJob record, restricted to the fields
process_video_background writes (processing.py lines 50-99). -/
structure Job where
  status : JobStatus
  entry_count : Option Int
  exit_count : Option Int
  total_frames_processed : Option Nat
  error_message : Option String
  started_at : Option Nat
  completed_at : Option Nat
deriving DecidableEq, Repr

/-- A freshly created job record, before the background task runs. -/
def newJob : Job :=
  ⟨.pending, none, none, none, none, none, none⟩

/-- Embeds process_video_background (processing.py lines 40-102).  The body
first commits status = PROCESSING with started_at; the whole run - the call
into process_video_file, the thumbnail creation and the result copy - sits
in a try whose except Exception handler commits status = FAILED with
error_message = str(e) and completed_at.  The run is abstracted as its
outcome: ok carries the result dictionary of process_video_file, error the
exception message.  The function is total: every failure of the run is
converted into a FAILED record, none escapes.  Commits are atomic, so the
record seen by readers is the returned one. -/
def process_video_background (job : Job) (now : Nat)
    (outcome : Except String RunOutput) : Job :=
  let job1 := { job with status := .processing, started_at := some now }
  match outcome with
  | .ok result =>
    { job1 with
      status := .completed
      entry_count := some result.entry_count
      exit_count := some result.exit_count
      total_frames_processed := some result.total_frames
      completed_at := some now }
  | .error e =>
    { job1 with
      status := .failed
      error_message := some e
      completed_at := some now }

/-- State of one livestream processing task, the asyncio.Task running
process_livestream_realtime (websocket.py lines 43-121).  cancel_requested
is the flag set by Task.cancel, which only requests cancellation: the task
keeps running until it next reaches an await point.  finished records
whether the coroutine has completed; source_released whether its track
generator, which holds the stream source, has been closed.  frames_read
counts the frame reads its loop has performed. -/
structure SessionTask where
  cancel_requested : Bool
  finished : Bool
  source_released : Bool
  frames_read : Nat
deriving DecidableEq, Repr

/-- A task that asyncio.create_task has just scheduled: nothing run yet. -/
def freshTask : SessionTask :=
  ⟨false, false, false, 0⟩

/-- Embeds the session-replacement fragment of websocket_livestream
(websocket.py lines 162-185):
    if client_id in manager.processing_tasks:
        manager.processing_tasks[client_id].cancel()
    task = asyncio.create_task(process_livestream_realtime(...))
    manager.processing_tasks[client_id] = task
Task.cancel returns immediately after scheduling a CancelledError into the
task; it is never awaited here, so the fields finished and source_released
of the old task are exactly as they were when the new task is registered.
Returns the new registry, the old task as it stands at that moment (none
when there was no old task), and the new task. -/
def replace_processing_task (tasks : String → Option SessionTask)
    (client_id : String) :
    (String → Option SessionTask) × Option SessionTask × SessionTask :=
  let old :=
    match tasks client_id with
    | some t => some { t with cancel_requested := true }
    | none => none
  let task := freshTask
  (fun k => if k = client_id then some task else tasks k, old, task)

/-- Embeds ConfigurationBase (schemas/configuration.py lines 7-18),
restricted to the run parameters.  The pydantic model declares the plain
field types with defaults and no Field constraints and no validators, so
every type-correct combination of values is accepted as written here: the
structure carries no invariant. -/
structure ConfigurationBase where
  roi_x1 : Int
  roi_y1 : Int
  roi_x2 : Int
  roi_y2 : Int
  confidence_threshold : ℚ
  debounce_frames : Int
deriving DecidableEq, Repr

/-- Closed form of is_crossing_line: the nonzero result (1 when the side
value increased, -1 when it decreased) is produced exactly when the center
side flips sign and at least one of the two boxes crosses the line by the
edge test; the three-case bbox_cross disjunction of the source collapses to
that disjunction. -/
theorem is_crossing_line_eq (L pb cb : Box) (pc cc : Point) :
    is_crossing_line L pb cb pc cc =
      if (side L pc.1 pc.2 ≠ 0 ∧ side L cc.1 cc.2 ≠ 0 ∧
            side L pc.1 pc.2 * side L cc.1 cc.2 < 0) ∧
          (box_cross L pb = true ∨ box_cross L cb = true) then
        if side L pc.1 pc.2 < side L cc.1 cc.2 then 1 else -1
      else 0 := by
  unfold is_crossing_line
  cases hp : box_cross L pb <;> cases hc : box_cross L cb <;>
    by_cases hf : side L pc.1 pc.2 ≠ 0 ∧ side L cc.1 cc.2 ≠ 0 ∧
        side L pc.1 pc.2 * side L cc.1 cc.2 < 0 <;>
    simp [hp, hc, hf] <;>
    split_ifs <;> simp_all

/-- C1: the claim says that a crossing with prev_side < curr_side is reported
as ENTRY and that the value labelled entry makes check_crossings increment
entry_count.  The code does the opposite.  At the concrete input below the
center side flips from -50 to 50 (so prev_side < curr_side), is_crossing_line
returns 1, the value its own comment on line 45 labels entry, and the boxes
cross the line; yet check_crossings increments exit_count, records the event
with type exit and leaves entry_count at 0.  This contradicts both the
specification and the comment of the source, so the code is the slip. -/
theorem check_crossings_swaps_entry_exit :
    is_crossing_line (0, 0, 10, 0) (3, -1, 7, 11) (3, -11, 7, 1) (5, 5) (5, -5) = 1 ∧
    side (0, 0, 10, 0) 5 5 < side (0, 0, 10, 0) 5 (-5) ∧
    (process_frame (process_frame (init_tracker (0, 0, 10, 0) 50)
        [⟨7, (5, 5), (3, -1, 7, 11)⟩]) [⟨7, (5, -5), (3, -11, 7, 1)⟩]).exit_count = 1 ∧
    (process_frame (process_frame (init_tracker (0, 0, 10, 0) 50)
        [⟨7, (5, 5), (3, -1, 7, 11)⟩]) [⟨7, (5, -5), (3, -11, 7, 1)⟩]).entry_count = 0 ∧
    (process_frame (process_frame (init_tracker (0, 0, 10, 0) 50)
        [⟨7, (5, 5), (3, -1, 7, 11)⟩]) [⟨7, (5, -5), (3, -11, 7, 1)⟩]).recent_events 7 =
      some ("exit", 2) := by
  refine ⟨by decide, by decide, ?_, ?_, ?_⟩ <;> decide

/-- C2: is_crossing_line reports a nonzero crossing iff the center side is
nonzero in both frames and flips sign, and the line crosses an edge of the
previous or of the current box; without a sign flip the result is 0 whatever
the boxes do; and the three-case bbox_cross disjunction of the source equals
prev_cross OR curr_cross. -/
theorem is_crossing_line_characterization (L pb cb : Box) (pc cc : Point) :
    (is_crossing_line L pb cb pc cc ≠ 0 ↔
      (side L pc.1 pc.2 ≠ 0 ∧ side L cc.1 cc.2 ≠ 0 ∧
        side L pc.1 pc.2 * side L cc.1 cc.2 < 0) ∧
      (box_cross L pb = true ∨ box_cross L cb = true)) ∧
    (¬ side L pc.1 pc.2 * side L cc.1 cc.2 < 0 →
      is_crossing_line L pb cb pc cc = 0) ∧
    ((!box_cross L pb && box_cross L cb) || (box_cross L pb && !box_cross L cb) ||
        (box_cross L pb && box_cross L cb)) = (box_cross L pb || box_cross L cb) := by
  refine ⟨?_, ?_, ?_⟩
  · rw [is_crossing_line_eq]
    split_ifs with h hlt
    · simpa using h
    · simpa using h
    · simp [h]
  · intro hflip
    rw [is_crossing_line_eq]
    split_ifs with h hlt
    · exact absurd h.1.2.2 hflip
    · exact absurd h.1.2.2 hflip
    · rfl
  · cases box_cross L pb <;> cases box_cross L cb <;> rfl

/-- Witness for C2 at a concrete input: the center moves from side -50 to
side 50 across the line while neither box meets the edge test, so no
crossing is reported; the no-flip conjunct fires on a no-flip input. -/
theorem is_crossing_line_characterization_witness :
    is_crossing_line (0, 0, 10, 0) (3, 3, 7, 7) (3, -7, 7, -3) (5, 5) (5, 10) = 0 :=
  (is_crossing_line_characterization (0, 0, 10, 0) (3, 3, 7, 7) (3, -7, 7, -3)
    (5, 5) (5, 10)).2.1 (by decide)

/-- Two vectors each parallel to a nonzero direction (dx, dy) are parallel
to each other. -/
theorem cross_zero_of_parallel (dx dy ux uy vx vy : Int) (hd : ¬(dx = 0 ∧ dy = 0))
    (hu : dy * ux = dx * uy) (hv : dy * vx = dx * vy) : ux * vy - uy * vx = 0 := by
  have key : dx * (ux * vy - uy * vx) = 0 ∧ dy * (ux * vy - uy * vx) = 0 := by
    constructor
    · linear_combination vx * hu - ux * hv
    · linear_combination vy * hu - uy * hv
  by_cases hdx : dx = 0
  · have hdy : dy ≠ 0 := fun h => hd ⟨hdx, h⟩
    rcases mul_eq_zero.mp key.2 with h | h
    · exact absurd h hdy
    · exact h
  · rcases mul_eq_zero.mp key.1 with h | h
    · exact absurd h hdx
    · exact h

/-- The side value of a point equals the cross product of the line direction
with the vector from the first line endpoint to the point. -/
theorem side_as_cross (x1 y1 x2 y2 px py : Int) :
    side (x1, y1, x2, y2) px py = (y2 - y1) * (px - x1) - (x2 - x1) * (py - y1) := by
  unfold side
  ring

/-- The side value also equals the cross product measured from the second
line endpoint. -/
theorem side_as_cross_snd (x1 y1 x2 y2 px py : Int) :
    side (x1, y1, x2, y2) px py = (y2 - y1) * (px - x2) - (x2 - x1) * (py - y2) := by
  unfold side
  ring

/-- C10 amended, part that holds: a segment collinear with the ROI line -
both endpoints with side value 0 - never passes the strict orientation
test, whatever the line is (including a degenerate line with coincident
endpoints). -/
theorem line_intersect_collinear_false (x1 y1 x2 y2 : Int) (q1 q2 : Point)
    (h1 : side (x1, y1, x2, y2) q1.1 q1.2 = 0)
    (h2 : side (x1, y1, x2, y2) q2.1 q2.2 = 0) :
    line_intersect (x1, y1) (x2, y2) q1 q2 = false := by
  have hA : ccw (x1, y1) q1 q2 = ccw (x2, y2) q1 q2 := by
    by_cases hd : x2 - x1 = 0 ∧ y2 - y1 = 0
    · have hx : x2 = x1 := by omega
      have hy : y2 = y1 := by omega
      rw [hx, hy]
    · have hu1 : (y2 - y1) * (q1.1 - x1) = (x2 - x1) * (q1.2 - y1) := by
        have := side_as_cross x1 y1 x2 y2 q1.1 q1.2
        omega
      have hv1 : (y2 - y1) * (q2.1 - x1) = (x2 - x1) * (q2.2 - y1) := by
        have := side_as_cross x1 y1 x2 y2 q2.1 q2.2
        omega
      have hu2 : (y2 - y1) * (q1.1 - x2) = (x2 - x1) * (q1.2 - y2) := by
        have := side_as_cross_snd x1 y1 x2 y2 q1.1 q1.2
        omega
      have hv2 : (y2 - y1) * (q2.1 - x2) = (x2 - x1) * (q2.2 - y2) := by
        have := side_as_cross_snd x1 y1 x2 y2 q2.1 q2.2
        omega
      have c1 : (q1.1 - x1) * (q2.2 - y1) - (q1.2 - y1) * (q2.1 - x1) = 0 :=
        cross_zero_of_parallel (x2 - x1) (y2 - y1) _ _ _ _ hd hu1 hv1
      have c2 : (q1.1 - x2) * (q2.2 - y2) - (q1.2 - y2) * (q2.1 - x2) = 0 :=
        cross_zero_of_parallel (x2 - x1) (y2 - y1) _ _ _ _ hd hu2 hv2
      unfold ccw
      have c1' : (q2.2 - y1) * (q1.1 - x1) = (q1.2 - y1) * (q2.1 - x1) := by
        linear_combination c1
      have c2' : (q2.2 - y2) * (q1.1 - x2) = (q1.2 - y2) * (q2.1 - x2) := by
        linear_combination c2
      have e1 : ¬ ((q2.2 - y1) * (q1.1 - x1) > (q1.2 - y1) * (q2.1 - x1)) := by omega
      have e2 : ¬ ((q2.2 - y2) * (q1.1 - x2) > (q1.2 - y2) * (q2.1 - x2)) := by omega
      simp [e1, e2]
  unfold line_intersect
  rw [hA]
  simp

/-- Witness for the C10 amended theorem: the segment from (2, 0) to (9, 0)
is collinear with the line from (0, 0) to (10, 0) and the test reports no
intersection. -/
theorem line_intersect_collinear_false_witness :
    line_intersect (0, 0) (10, 0) (2, 0) (9, 0) = false :=
  line_intersect_collinear_false 0 0 10 0 (2, 0) (9, 0) (by decide) (by decide)

/-- C10 counterexample: the right edge of the box (3, 0, 7, 5) runs from
(7, 0) to (7, 5); its only contact with the line from (0, 0) to (10, 0) is
its endpoint (7, 0), which lies on the line (side 0) while the rest of the
edge stays strictly on one side (side of (7, 5) is negative).  The strict
orientation test nevertheless reports an intersection for that edge, and
the whole box - which merely rests on the line, every corner having side
value less or equal 0 - satisfies the bounding-box corroboration predicate.
This refutes the claim that endpoint-only contact is never reported. -/
theorem line_intersect_endpoint_contact_true :
    line_intersect (0, 0) (10, 0) (7, 0) (7, 5) = true ∧
    side (0, 0, 10, 0) 7 0 = 0 ∧
    side (0, 0, 10, 0) 7 5 < 0 ∧
    side (0, 0, 10, 0) 3 0 = 0 ∧
    side (0, 0, 10, 0) 3 5 < 0 ∧
    box_cross (0, 0, 10, 0) (3, 0, 7, 5) = true := by
  decide

/-- C3: should_count_event accepts iff the track has no recorded event or
the frame gap strictly exceeds debounce_frames; with one track recording at
frame 10, a crossing at frame 10 + d is suppressed while one at frame
10 + d + 1 is accepted; and with debounce_frames = 0 every crossing at a
frame strictly after the last recorded one - as successive observations of
one track always are - is accepted. -/
theorem should_count_event_debounce (st : FootfallTracker) (track_id : Int)
    (etype : String) (d : Int) :
    (should_count_event st track_id etype = true ↔
      st.recent_events track_id = none ∨
      ∃ ev, st.recent_events track_id = some ev ∧
        st.frame_number - ev.2 > st.debounce_frames) ∧
    should_count_event
      { init_tracker (0, 0, 10, 0) d with frame_number := 10 } 7 "entry" = true ∧
    should_count_event
      { record_event { init_tracker (0, 0, 10, 0) d with frame_number := 10 } 7 "entry"
        with frame_number := 10 + d } 7 "entry" = false ∧
    should_count_event
      { record_event { init_tracker (0, 0, 10, 0) d with frame_number := 10 } 7 "entry"
        with frame_number := 10 + d + 1 } 7 "entry" = true ∧
    (∀ f n : Int, f < n →
      should_count_event
        { record_event { init_tracker (0, 0, 10, 0) 0 with frame_number := f } 7 "entry"
          with frame_number := n } 7 "entry" = true) := by
  refine ⟨?_, rfl, ?_, ?_, ?_⟩
  · unfold should_count_event
    cases h : st.recent_events track_id with
    | none => simp
    | some ev => simp [decide_eq_true_iff]
  · show decide ((10 : Int) + d - 10 > d) = false
    exact decide_eq_false (by omega)
  · show decide ((10 : Int) + d + 1 - 10 > d) = true
    exact decide_eq_true (by omega)
  · intro f n hfn
    show decide (n - f > (0 : Int)) = true
    exact decide_eq_true (by omega)

/-- Witness for C3 with debounce_frames = 3: the event recorded at frame 10
suppresses a crossing at frame 13 and accepts one at frame 14. -/
theorem should_count_event_debounce_witness :
    should_count_event
      { record_event { init_tracker (0, 0, 10, 0) 3 with frame_number := 10 } 7 "entry"
        with frame_number := 10 + 3 } 7 "entry" = false ∧
    should_count_event
      { record_event { init_tracker (0, 0, 10, 0) 3 with frame_number := 10 } 7 "entry"
        with frame_number := 10 + 3 + 1 } 7 "entry" = true :=
  ⟨(should_count_event_debounce (init_tracker (0, 0, 10, 0) 3) 7 "entry" 3).2.2.1,
   (should_count_event_debounce (init_tracker (0, 0, 10, 0) 3) 7 "entry" 3).2.2.2.1⟩

/-- C9: check_crossings overwrites the history entry of the observed track
with its current (bbox, center) unconditionally, and leaves both the history
entries and the debounce records of every other track unchanged. -/
theorem check_crossings_history_update (st : FootfallTracker) (det : Detection) :
    (check_crossings st det).tracked_objects det.track_id =
      some (det.bbox, det.center) ∧
    ∀ t, t ≠ det.track_id →
      (check_crossings st det).tracked_objects t = st.tracked_objects t ∧
      (check_crossings st det).recent_events t = st.recent_events t := by
  constructor
  · unfold check_crossings
    cases h : st.tracked_objects det.track_id <;> simp [h]
  · intro t ht
    unfold check_crossings
    cases h : st.tracked_objects det.track_id with
    | none => simp [ht]
    | some prev =>
      simp only [h]
      split_ifs <;> simp_all [record_event]

/-- Witness for C9: after one frame observing track 7, the history of track
7 holds its observation while track 8 keeps no state. -/
theorem check_crossings_history_update_witness :
    (check_crossings (init_tracker (0, 0, 10, 0) 50)
        ⟨7, (5, 5), (3, 3, 7, 7)⟩).tracked_objects 7 =
      some ((3, 3, 7, 7), (5, 5)) ∧
    (check_crossings (init_tracker (0, 0, 10, 0) 50)
        ⟨7, (5, 5), (3, 3, 7, 7)⟩).tracked_objects 8 = none :=
  ⟨(check_crossings_history_update (init_tracker (0, 0, 10, 0) 50)
      ⟨7, (5, 5), (3, 3, 7, 7)⟩).1,
   ((check_crossings_history_update (init_tracker (0, 0, 10, 0) 50)
      ⟨7, (5, 5), (3, 3, 7, 7)⟩).2 8 (by decide)).1⟩

/-- The counting invariant of the specification: both counters are
non-negative and their sum is the number of accepted events ever logged. -/
abbrev CountInv (st : FootfallTracker) : Prop :=
  0 ≤ st.entry_count ∧ 0 ≤ st.exit_count ∧
    st.entry_count + st.exit_count = (st.events.length : Int)

/-- One check_crossings call either leaves counters and event log unchanged,
or appends exactly one event while incrementing exactly one counter by one. -/
theorem check_crossings_step (st : FootfallTracker) (det : Detection) :
    ((check_crossings st det).events = st.events ∧
      (check_crossings st det).entry_count = st.entry_count ∧
      (check_crossings st det).exit_count = st.exit_count) ∨
    (∃ e, (check_crossings st det).events = st.events ++ [e] ∧
      (((check_crossings st det).entry_count = st.entry_count + 1 ∧
          (check_crossings st det).exit_count = st.exit_count) ∨
        ((check_crossings st det).exit_count = st.exit_count + 1 ∧
          (check_crossings st det).entry_count = st.entry_count))) := by
  unfold check_crossings
  cases h : st.tracked_objects det.track_id with
  | none => left; simp
  | some prev =>
    simp only [h]
    split_ifs with h1 h2
    · right
      exact ⟨⟨det.track_id, "exit", st.frame_number⟩, by simp [record_event],
        Or.inr (by simp [record_event])⟩
    · right
      exact ⟨⟨det.track_id, "entry", st.frame_number⟩, by simp [record_event],
        Or.inl (by simp [record_event])⟩
    · left; simp

/-- check_crossings preserves the counting invariant. -/
theorem check_crossings_inv (st : FootfallTracker) (det : Detection)
    (h : CountInv st) : CountInv (check_crossings st det) := by
  obtain ⟨h1, h2, h3⟩ := h
  rcases check_crossings_step st det with ⟨he, hen, hex⟩ | ⟨e, he, hc⟩
  · refine ⟨?_, ?_, ?_⟩
    · rw [hen]; exact h1
    · rw [hex]; exact h2
    · rw [hen, hex, he]; exact h3
  · rcases hc with ⟨hen, hex⟩ | ⟨hex, hen⟩ <;>
      refine ⟨by rw [hen]; omega, by rw [hex]; omega, ?_⟩ <;>
      rw [hen, hex, he] <;> simp <;> omega

/-- process_frame preserves the counting invariant. -/
theorem process_frame_inv (detections : List Detection) :
    ∀ st : FootfallTracker, CountInv st → CountInv (process_frame st detections) := by
  have main : ∀ (l : List Detection) (st : FootfallTracker),
      CountInv st → CountInv (l.foldl check_crossings st) := by
    intro l
    induction l with
    | nil => intro st h; exact h
    | cons d rest ih =>
      intro st h
      exact ih _ (check_crossings_inv st d h)
  intro st h
  exact main detections { st with frame_number := st.frame_number + 1 } ⟨h.1, h.2.1, h.2.2⟩

/-- C4: in every tracker state reachable from a fresh tracker by
process_frame and check_crossings calls, both counters are non-negative and
their sum equals the length of the accepted-event log; get_counts reports
total = entries + exits; and each single check_crossings call either changes
nothing or logs exactly one event while incrementing exactly one counter by
one. -/
theorem counts_invariant (L : Box) (d : Int) (ops : List TrackerOp) :
    (0 ≤ (runOps L d ops).entry_count ∧ 0 ≤ (runOps L d ops).exit_count ∧
      (runOps L d ops).entry_count + (runOps L d ops).exit_count =
        ((runOps L d ops).events.length : Int)) ∧
    (get_counts (runOps L d ops)).total =
      (get_counts (runOps L d ops)).entries + (get_counts (runOps L d ops)).exits ∧
    (∀ (st : FootfallTracker) (det : Detection),
      ((check_crossings st det).events = st.events ∧
        (check_crossings st det).entry_count = st.entry_count ∧
        (check_crossings st det).exit_count = st.exit_count) ∨
      (∃ e, (check_crossings st det).events = st.events ++ [e] ∧
        (((check_crossings st det).entry_count = st.entry_count + 1 ∧
            (check_crossings st det).exit_count = st.exit_count) ∨
          ((check_crossings st det).exit_count = st.exit_count + 1 ∧
            (check_crossings st det).entry_count = st.entry_count)))) := by
  refine ⟨?_, rfl, check_crossings_step⟩
  have main : ∀ (l : List TrackerOp) (st : FootfallTracker),
      CountInv st → CountInv (l.foldl applyOp st) := by
    intro l
    induction l with
    | nil => intro st h; exact h
    | cons op rest ih =>
      intro st h
      refine ih _ ?_
      cases op with
      | frame detections => exact process_frame_inv detections st h
      | cross det => exact check_crossings_inv st det h
  exact main ops (init_tracker L d)
    ⟨by simp [init_tracker], by simp [init_tracker], by simp [init_tracker]⟩

/-- C5: process_video_background is a total function of the run outcome -
no exception escapes the background task.  A failure of the run is converted
into a FAILED record carrying the failure message and a completion
timestamp; a successful run has its counts, frame total and duration copied
into the record that carries the COMPLETED status, and commits are atomic,
so the COMPLETED status is never observable without the copied results. -/
theorem process_video_background_outcomes (job : Job) (now : Nat)
    (outcome : Except String RunOutput) :
    (∀ e, outcome = .error e →
      process_video_background job now outcome =
        { job with
            status := .failed
            started_at := some now
            error_message := some e
            completed_at := some now }) ∧
    (∀ r, outcome = .ok r →
      process_video_background job now outcome =
        { job with
            status := .completed
            started_at := some now
            entry_count := some r.entry_count
            exit_count := some r.exit_count
            total_frames_processed := some r.total_frames
            completed_at := some now }) := by
  constructor
  · rintro e rfl
    rfl
  · rintro r rfl
    rfl

/-- Witness for C5: a failed run yields the FAILED record with its message,
a successful run yields the COMPLETED record with the copied counts. -/
theorem process_video_background_outcomes_witness :
    process_video_background newJob 5 (.error "corrupt stream") =
      { newJob with
          status := .failed
          started_at := some 5
          error_message := some "corrupt stream"
          completed_at := some 5 } ∧
    process_video_background newJob 5 (.ok ⟨2, 3, 40, 30⟩) =
      { newJob with
          status := .completed
          started_at := some 5
          entry_count := some 2
          exit_count := some 3
          total_frames_processed := some 40
          completed_at := some 5 } :=
  ⟨(process_video_background_outcomes newJob 5 (.error "corrupt stream")).1
      "corrupt stream" rfl,
   (process_video_background_outcomes newJob 5 (.ok ⟨2, 3, 40, 30⟩)).2
      ⟨2, 3, 40, 30⟩ rfl⟩

/-- C6: at the failing input - an existing video whose declared frame count
is 0 - process_video_file raises the ValueError of lines 60-63 after the
capture has been opened but before the try/finally of lines 79-107 is
entered, so the capture is never released on that path.  The claim that
every exit path, the early EmptySource failure included, releases the
source is right about the intent the try/finally expresses and wrong about
this code path. -/
theorem process_video_file_empty_source_leaks_cap :
    process_video_file ⟨true, 0, 30, [], none, none⟩ (0, 0, 10, 0) (1 / 2) 50 true =
      (.error "ValueError", ⟨true, false, false, false⟩) := rfl

/-- Under a run with no injected failure the frame loop consumes every
yielded frame and returns the folded tracker state with the frame count. -/
theorem run_loop_no_fail (frames : List (List Detection)) :
    ∀ (st : FootfallTracker) (i : Nat) (useOutput : Bool),
      run_loop st frames i none none useOutput =
        .ok (frames.foldl process_frame st, i + frames.length) := by
  induction frames with
  | nil => intro st i useOutput; simp [run_loop]
  | cons f rest ih =>
    intro st i useOutput
    simp only [run_loop, ih]
    have h1 : ¬ ((none : Option Nat) = some i) := by simp
    rw [if_neg h1, if_neg (by simp)]
    simp only [List.foldl_cons, List.length_cons]
    have harith : i + 1 + rest.length = i + (rest.length + 1) := by omega
    rw [harith]

/-- C8 amended: process_video_file performs no parameter validation at all.
For every ROI line - coincident endpoints included - every confidence value
and every debounce value, a run on an existing, non-empty source with no
injected failure starts, processes every frame and returns a normal result;
no validation error is ever produced. -/
theorem process_video_file_no_validation (env : VideoEnv) (roi_coords : Box)
    (confidence : ℚ) (debounce_frames : Int) (useOutput : Bool)
    (hex : env.file_exists = true) (hn : ¬ env.total_frames = 0)
    (ht : env.tracker_fail_at = none) (hw : env.write_fail_at = none) :
    (process_video_file env roi_coords confidence debounce_frames useOutput).1 =
      .ok ⟨(env.frames.foldl process_frame (init_tracker roi_coords debounce_frames)).entry_count,
           (env.frames.foldl process_frame (init_tracker roi_coords debounce_frames)).exit_count,
           env.frames.length, env.fps⟩ ∧
    (process_video_file env roi_coords confidence debounce_frames useOutput).2.cap_released
      = true := by
  unfold process_video_file
  rw [hex, ht, hw]
  rw [if_neg (by simp), if_neg hn]
  rw [run_loop_no_fail]
  simp

/-- C8 counterexample: with confidence 2 (outside [0, 1]), debounce -5
(negative) and the degenerate ROI line from (3, 3) to (3, 3), a run over an
existing one-frame video is not rejected: the schema accepts the values
unchanged and process_video_file returns a normal result after processing
the frame, refuting the claim that such runs fail validation before any
frame processing begins. -/
theorem process_video_file_accepts_invalid_config :
    (⟨3, 3, 3, 3, 2, -5⟩ : ConfigurationBase).confidence_threshold = 2 ∧
    (⟨3, 3, 3, 3, 2, -5⟩ : ConfigurationBase).debounce_frames = -5 ∧
    (process_video_file ⟨true, 5, 30, [[]], none, none⟩ (3, 3, 3, 3) 2 (-5) false).1 =
      .ok ⟨0, 0, 1, 30⟩ := by
  refine ⟨rfl, rfl, ?_⟩
  rfl

/-- Witness for the C8 amended theorem at the same invalid parameters: the
run returns a normal result and the capture is released. -/
theorem process_video_file_no_validation_witness :
    (process_video_file ⟨true, 5, 30, [[]], none, none⟩ (3, 3, 3, 3) 2 (-5) false).1 =
      .ok ⟨(([[]] : List (List Detection)).foldl process_frame
              (init_tracker (3, 3, 3, 3) (-5))).entry_count,
           (([[]] : List (List Detection)).foldl process_frame
              (init_tracker (3, 3, 3, 3) (-5))).exit_count, 1, 30⟩ ∧
    (process_video_file ⟨true, 5, 30, [[]], none, none⟩ (3, 3, 3, 3) 2 (-5) false).2.cap_released
      = true :=
  process_video_file_no_validation ⟨true, 5, 30, [[]], none, none⟩ (3, 3, 3, 3) 2 (-5)
    false rfl (by decide) rfl rfl

/-- C7 counterexample: the registry holds a running task for key cam1 whose
source is not released (it has read 42 frames and is mid-loop).  The
handler fragment of websocket.py lines 162-185 then registers a fresh task
for cam1; at that moment the old task has only had cancellation requested:
it is not finished and its source is not released, so nothing orders the
release of the old source before the first frame read of the new task.
This refutes the claim that the old session is awaited to completion before
the new session begins. -/
theorem replace_task_does_not_await_old :
    (replace_processing_task
        (fun k => if k = "cam1" then some ⟨false, false, false, 42⟩ else none)
        "cam1").2.1 = some ⟨true, false, false, 42⟩ ∧
    (replace_processing_task
        (fun k => if k = "cam1" then some ⟨false, false, false, 42⟩ else none)
        "cam1").1 "cam1" = some freshTask := by
  constructor <;> rfl

/-- C7 amended: when a session already exists for the client key, the
handler requests cancellation of its task and immediately registers the new
task; the old task is not awaited, so its finished and source_released
state is exactly what it was before the call. -/
theorem replace_task_cancels_without_await (tasks : String → Option SessionTask)
    (client_id : String) (t : SessionTask) (h : tasks client_id = some t) :
    (replace_processing_task tasks client_id).2.1 =
      some { t with cancel_requested := true } ∧
    (replace_processing_task tasks client_id).1 client_id = some freshTask := by
  unfold replace_processing_task
  rw [h]
  exact ⟨rfl, by simp⟩

/-- Witness for the C7 amended theorem on a one-entry registry. -/
theorem replace_task_cancels_without_await_witness :
    (replace_processing_task
        (fun k => if k = "cam2" then some ⟨false, false, true, 9⟩ else none)
        "cam2").2.1 = some ⟨true, false, true, 9⟩ ∧
    (replace_processing_task
        (fun k => if k = "cam2" then some ⟨false, false, true, 9⟩ else none)
        "cam2").1 "cam2" = some freshTask :=
  replace_task_cancels_without_await
    (fun k => if k = "cam2" then some ⟨false, false, true, 9⟩ else none)
    "cam2" ⟨false, false, true, 9⟩ (by simp)

end Footfall
